import Mathlib

/-!
Verification of the LINE psychology chat-bot webhook (src/app.py).

The program is a single-file Flask application.  We embed its pure
decision logic shallowly:

* Python `str.strip()` is modelled by `pyStrip` (dropping whitespace
  characters from both ends of the character list);
* the OpenAI client is modelled by an oracle `api : Call → Except Unit
  (Option String)` mapping a request (model identifier, system prompt,
  user text) to either a returned message content (possibly `none`,
  matching a `None` content field) or a failure (a raised exception);
* the LINE reply send is an oracle `send : String → String → Except Unit
  Unit`; a `.error` value models a raised exception;
* `ask_gpt` and `on_text` additionally return the trace of completion
  calls made, in order, so that "no model call is made" is a statement
  about the trace;
* the webhook-signature computation of the LINE SDK (HMAC-SHA256 of the
  body with the channel secret, base64-encoded) is not part of this
  repository; it is abstracted as a parameter `sign : String → String →
  String`, and the SDK handler raises `InvalidSignatureError` exactly
  when the header differs from `sign secret body`.
-/

namespace LineBot

/-- Whitespace test used by the model of Python `str.strip()`. -/
def ws (c : Char) : Bool := c.isWhitespace

/-- Drop whitespace from both ends of a character list. -/
def stripList (l : List Char) : List Char :=
  ((l.dropWhile ws).reverse.dropWhile ws).reverse

/-- Model of Python `str.strip()` (no argument): remove leading and
trailing whitespace. -/
def pyStrip (s : String) : String := ⟨stripList s.data⟩

/-- Model of Python substring containment `needle in hay` on strings. -/
def containsSub (needle hay : String) : Bool :=
  decide (needle.data <:+: hay.data)

/-- CRISIS_WORDS from src/app.py line 51. -/
def CRISIS_WORDS : List String :=
  ["自殺", "想死", "不想活", "輕生", "自我了斷", "割腕", "跳樓", "傷害自己"]

/-- CRISIS_REPLY from src/app.py lines 52-57. -/
def CRISIS_REPLY : String :=
  "⚠️ 我很在乎你的安全，也謝謝你願意說出來。\n" ++
  "若你有立即危險，請立刻撥打 110 / 119。\n" ++
  "需要傾訴可撥 **1925 安心專線**（24小時）。\n" ++
  "如果你願意，也可以告訴我：此刻最讓你難受的是什麼？我會在這裡陪你。"

/-- Fixed apology returned when both completion calls fail
(src/app.py line 106). -/
def APOLOGY : String :=
  "抱歉，我這邊暫時遇到問題，但我仍在這裡。願意多說一點發生了什麼嗎？"

/-- Notice prefixed to the echoed text when no OpenAI key is configured
(src/app.py line 76; the f-string with user_text appended). -/
def NO_KEY_NOTICE : String := "（尚未設定 OPENAI_API_KEY）你剛剛說："

/-- Built-in default system prompt (src/app.py line 46). -/
def DEFAULT_PROMPT : String :=
  "你是一位溫柔且堅定的中文陪聊者。回覆要短、同理、具體；不提供醫療診斷。"

/-- Crisis test of src/app.py line 133:
`any(w in user_text for w in CRISIS_WORDS)`. -/
def crisisHit (user_text : String) : Bool :=
  CRISIS_WORDS.any fun w => containsSub w user_text

/-- One chat-completion request: the model identifier and the two message
contents passed to `client.chat.completions.create` (src/app.py
lines 79-88 and 93-102). -/
structure Call where
  model : String
  system : String
  user : String
  deriving DecidableEq, Repr

/-- The startup configuration read from the environment: model
identifiers, system prompt, and whether an OpenAI client was built
(src/app.py lines 23-28, 48). -/
structure Config where
  model : String
  fallbackModel : String
  systemPrompt : String
  hasClient : Bool
  deriving DecidableEq, Repr

/-- Oracle for the completion API: `.ok c` is a response whose
`choices[0].message.content` is `c` (`none` models a `None` content),
`.error` a raised exception. -/
def Api : Type := Call → Except Unit (Option String)

/-- ask_gpt from src/app.py lines 74-106, returning the reply text
together with the trace of completion calls made. -/
def ask_gpt (cfg : Config) (api : Api) (user_text : String) :
    String × List Call :=
  if !cfg.hasClient then
    (NO_KEY_NOTICE ++ user_text, [])
  else
    let c1 : Call := ⟨cfg.model, cfg.systemPrompt, user_text⟩
    match api c1 with
    | .ok content => (pyStrip (content.getD ""), [c1])
    | .error _ =>
      let c2 : Call := ⟨cfg.fallbackModel, cfg.systemPrompt, user_text⟩
      match api c2 with
      | .ok content => (pyStrip (content.getD ""), [c1, c2])
      | .error _ => (APOLOGY, [c1, c2])

/-- An inbound text event: the one-time reply token and the message text
(`none` models a `None` text field). -/
structure TextEvent where
  reply_token : String
  text : Option String
  deriving DecidableEq, Repr

/-- Normalisation of src/app.py line 130:
`(event.message.text or "").strip()`. -/
def normalize (t : Option String) : String := pyStrip (t.getD "")

/-- Outcome of handling one text event: the reply text chosen, the trace
of completion calls made, and whether the LINE reply send succeeded.
The handler itself never raises: the send exception is caught and logged
(src/app.py lines 139-142). -/
structure HandlerResult where
  reply : String
  calls : List Call
  sendOk : Bool
  deriving DecidableEq, Repr

/-- on_text from src/app.py lines 128-142. -/
def on_text (cfg : Config) (api : Api)
    (send : String → String → Except Unit Unit) (ev : TextEvent) :
    HandlerResult :=
  let user_text := normalize ev.text
  let rc : String × List Call :=
    if crisisHit user_text then (CRISIS_REPLY, [])
    else ask_gpt cfg api user_text
  let sOk : Bool := match send ev.reply_token rc.1 with
    | .ok _ => true
    | .error _ => false
  ⟨rc.1, rc.2, sOk⟩

/-- callback from src/app.py lines 109-125.  `sign secret body` is the
signature the SDK derives from the channel secret and the body; the SDK
raises `InvalidSignatureError` exactly when the header differs from it.
`parseEvents` is the SDK parse of the JSON body into text events.  The
result is the HTTP response body, the status code, and the handler
results of the dispatched events (empty when nothing was dispatched).
An absent header is modelled as `none`; Python `if not signature` also
treats an empty header string as missing. -/
def callback (sign : String → String → String) (secret : String)
    (cfg : Config) (api : Api)
    (send : String → String → Except Unit Unit)
    (parseEvents : String → List TextEvent)
    (body : String) (signature : Option String) :
    String × Nat × List HandlerResult :=
  match signature with
  | none => ("missing signature", 400, [])
  | some sig =>
    if sig = "" then ("missing signature", 400, [])
    else if sig = sign secret body then
      ("OK", 200, (parseEvents body).map (on_text cfg api send))
    else ("invalid signature", 400, [])

/-- Startup environment processing for the OpenAI side
(src/app.py lines 14-24): the process aborts iff a LINE variable is
empty after stripping; otherwise it starts, and the client exists iff
the stripped OPENAI_API_KEY is nonempty. -/
def startup (lineToken lineSecret openaiKey : String) :
    Except String Bool :=
  if pyStrip lineToken = "" ∨ pyStrip lineSecret = "" then
    .error "缺少 LINE 環境變數：LINE_CHANNEL_ACCESS_TOKEN / LINE_CHANNEL_SECRET"
  else
    .ok (decide (¬ pyStrip openaiKey = ""))

/-- Segment collection loop of load_system_prompt (src/app.py
lines 35-42).  `segs` is the list of raw values of SYSTEM_PROMPT_P1,
SYSTEM_PROMPT_P2, ...; an absent variable is the empty string, and only
finitely many are set, so values beyond the list are empty and the
Python while-loop is exactly this structural recursion. -/
def collectParts : List String → List String
  | [] => []
  | s :: rest =>
    let t := pyStrip s
    if t = "" then [] else t :: collectParts rest

/-- load_system_prompt from src/app.py lines 31-46.  `sp` is the raw
value of SYSTEM_PROMPT (empty when absent). -/
def load_system_prompt (sp : String) (segs : List String) : String :=
  let txt := pyStrip sp
  if txt ≠ "" then txt
  else
    let parts := collectParts segs
    if parts ≠ [] then String.intercalate "\n" parts
    else DEFAULT_PROMPT

/-- Claimed system-prompt computation, transcribed from the wording of
claim C8: use the trimmed SYSTEM_PROMPT when nonempty, otherwise
newline-join the numbered segments up to the first absent/empty one. -/
def claimedPrompt (sp : String) (segs : List String) : String :=
  let txt := pyStrip sp
  if txt ≠ "" then txt
  else
    String.intercalate "\n" (segs.takeWhile fun s => decide (¬ s = ""))

/-- Amended system-prompt computation: as claimed, but each segment is
trimmed (collection stopping at the first empty-after-trim segment), and
when no segment is collected a built-in default prompt is used. -/
def amendedPrompt (sp : String) (segs : List String) : String :=
  let txt := pyStrip sp
  if txt ≠ "" then txt
  else
    let parts := (segs.map pyStrip).takeWhile fun s => decide (¬ s = "")
    if parts = [] then DEFAULT_PROMPT
    else String.intercalate "\n" parts

/-! ### Helper lemmas -/

/-- A nonempty whitespace-free word that occurs in a list still occurs
after the leading whitespace is dropped. -/
lemma infix_dropWhile_ws {u : List Char} (l : List Char) (hne : u ≠ [])
    (hws : ∀ c ∈ u, ws c = false) (h : u <:+: l) :
    u <:+: l.dropWhile ws := by
  induction l with
  | nil =>
    rw [List.infix_nil] at h
    exact absurd h hne
  | cons a l ih =>
    by_cases ha : ws a
    · rw [List.dropWhile_cons_of_pos ha]
      rcases List.infix_cons_iff.mp h with hp | hi
      · obtain ⟨c, t, rfl⟩ := List.exists_cons_of_ne_nil hne
        rcases List.cons_prefix_cons.mp hp with ⟨rfl, -⟩
        have hfa := hws c (List.mem_cons_self c t)
        rw [hfa] at ha
        exact absurd ha (by simp)
      · exact ih hi
    · rwa [List.dropWhile_cons_of_neg ha]

/-- A nonempty whitespace-free word that occurs in a list still occurs
after stripping whitespace from both ends. -/
lemma infix_stripList {u : List Char} (l : List Char) (hne : u ≠ [])
    (hws : ∀ c ∈ u, ws c = false) (h : u <:+: l) :
    u <:+: stripList l := by
  have h1 := infix_dropWhile_ws l hne hws h
  have hne2 : u.reverse ≠ [] := by simpa using hne
  have hws2 : ∀ c ∈ u.reverse, ws c = false := fun c hc =>
    hws c (List.mem_reverse.mp hc)
  have h3 := infix_dropWhile_ws (l.dropWhile ws).reverse hne2 hws2 h1.reverse
  simpa [stripList] using h3.reverse

/-- Every crisis keyword is nonempty and contains no whitespace. -/
lemma crisis_words_wf :
    ∀ w ∈ CRISIS_WORDS, w.data ≠ [] ∧ ∀ c ∈ w.data, ws c = false := by
  decide

/-- A crisis keyword occurring in the raw text also occurs in the
stripped text, hence trips the crisis test. -/
lemma crisisHit_of_infix {w t : String} (hw : w ∈ CRISIS_WORDS)
    (hin : w.data <:+: t.data) : crisisHit (pyStrip t) = true := by
  obtain ⟨hne, hws⟩ := crisis_words_wf w hw
  have hstrip : w.data <:+: stripList t.data := infix_stripList t.data hne hws hin
  unfold crisisHit
  rw [List.any_eq_true]
  exact ⟨w, hw, decide_eq_true hstrip⟩

/-- Every completion call recorded by ask_gpt carries the given user
text as its user message. -/
lemma ask_gpt_calls_user (cfg : Config) (api : Api) (u : String) :
    ∀ c ∈ (ask_gpt cfg api u).2, c.user = u := by
  intro c hc
  unfold ask_gpt at hc
  by_cases h : cfg.hasClient
  · simp only [h, Bool.not_true, Bool.false_eq_true, if_false] at hc
    cases h1 : api ⟨cfg.model, cfg.systemPrompt, u⟩ with
    | ok content => rw [h1] at hc; simp at hc; simp [hc]
    | error e =>
      rw [h1] at hc
      cases h2 : api ⟨cfg.fallbackModel, cfg.systemPrompt, u⟩ with
      | ok content => rw [h2] at hc; simp at hc; rcases hc with rfl | rfl <;> rfl
      | error e2 => rw [h2] at hc; simp at hc; rcases hc with rfl | rfl <;> rfl
  · simp [h] at hc

/-! ### Claim theorems -/

/-- Claim C1: for every inbound text event whose message text contains a
crisis keyword (case-sensitive substring match), the reply is exactly
CRISIS_REPLY and no completion-API call is made. -/
theorem crisis_keyword_fixed_reply (cfg : Config) (api : Api)
    (send : String → String → Except Unit Unit) (ev : TextEvent)
    (w : String) (hw : w ∈ CRISIS_WORDS)
    (hin : w.data <:+: (ev.text.getD "").data) :
    (on_text cfg api send ev).reply = CRISIS_REPLY ∧
    (on_text cfg api send ev).calls = [] := by
  have hcr : crisisHit (normalize ev.text) = true :=
    crisisHit_of_infix hw hin
  constructor <;> simp [on_text, hcr]

/-- Witness for C1: the event text 這樣想死掉算了 contains the keyword
想死, and the handler replies with CRISIS_REPLY making no call. -/
theorem crisis_keyword_fixed_reply_witness :
    "想死" ∈ CRISIS_WORDS ∧
    "想死".data <:+: ((some "這樣想死掉算了" : Option String).getD "").data ∧
    (on_text ⟨"gpt-4o", "gpt-4o-mini", "s", true⟩ (fun _ => .error ())
      (fun _ _ => .ok ()) ⟨"tok", some "這樣想死掉算了"⟩).reply = CRISIS_REPLY ∧
    (on_text ⟨"gpt-4o", "gpt-4o-mini", "s", true⟩ (fun _ => .error ())
      (fun _ _ => .ok ()) ⟨"tok", some "這樣想死掉算了"⟩).calls = [] :=
  ⟨by decide, by decide,
    (crisis_keyword_fixed_reply ⟨"gpt-4o", "gpt-4o-mini", "s", true⟩
      (fun _ => .error ()) (fun _ _ => .ok ()) ⟨"tok", some "這樣想死掉算了"⟩
      "想死" (by decide) (by decide)).1,
    (crisis_keyword_fixed_reply ⟨"gpt-4o", "gpt-4o-mini", "s", true⟩
      (fun _ => .error ()) (fun _ _ => .ok ()) ⟨"tok", some "這樣想死掉算了"⟩
      "想死" (by decide) (by decide)).2⟩

/-- Claim C2: a POST /callback request without the X-Line-Signature
header gets a 400 response and dispatches no event. -/
theorem missing_signature_400 (sign : String → String → String)
    (secret : String) (cfg : Config) (api : Api)
    (send : String → String → Except Unit Unit)
    (parseEvents : String → List TextEvent) (body : String) :
    callback sign secret cfg api send parseEvents body none =
      ("missing signature", 400, []) := rfl

/-- Claim C3: a POST /callback request whose signature header differs
from the secret-derived HMAC of the body gets a 400 response and no
event is processed. -/
theorem invalid_signature_400 (sign : String → String → String)
    (secret : String) (cfg : Config) (api : Api)
    (send : String → String → Except Unit Unit)
    (parseEvents : String → List TextEvent) (body sig : String)
    (h : sig ≠ sign secret body) :
    (callback sign secret cfg api send parseEvents body (some sig)).2.1 = 400 ∧
    (callback sign secret cfg api send parseEvents body (some sig)).2.2 = [] := by
  by_cases hsig : sig = "" <;> simp [callback, hsig, h]

/-- Witness for C3: a concrete tampered signature is rejected with 400
and an empty dispatch list. -/
theorem invalid_signature_400_witness :
    "bad" ≠ (fun s b => s ++ b) "sec" "body" ∧
    (callback (fun s b => s ++ b) "sec" ⟨"m", "f", "s", true⟩
      (fun _ => .error ()) (fun _ _ => .ok ()) (fun _ => [])
      "body" (some "bad")).2.1 = 400 ∧
    (callback (fun s b => s ++ b) "sec" ⟨"m", "f", "s", true⟩
      (fun _ => .error ()) (fun _ _ => .ok ()) (fun _ => [])
      "body" (some "bad")).2.2 = [] :=
  ⟨by decide,
    (invalid_signature_400 (fun s b => s ++ b) "sec" ⟨"m", "f", "s", true⟩
      (fun _ => .error ()) (fun _ _ => .ok ()) (fun _ => []) "body" "bad"
      (by decide)).1,
    (invalid_signature_400 (fun s b => s ++ b) "sec" ⟨"m", "f", "s", true⟩
      (fun _ => .error ()) (fun _ _ => .ok ()) (fun _ => []) "body" "bad"
      (by decide)).2⟩

/-- Counterexample to claim C4 as stated: with no crisis keyword and a
successful primary call returning the content " 你好 " the reply sent is
the stripped text 你好, not exactly the returned text. -/
theorem reply_not_exact_api_text :
    (on_text ⟨"gpt-4o", "gpt-4o-mini", "s", true⟩
      (fun _ => .ok (some " 你好 ")) (fun _ _ => .ok ())
      ⟨"tok", some "hi"⟩).reply = "你好" ∧
    ("你好" : String) ≠ " 你好 " := by
  constructor <;> decide

/-- Claim C4 (amended): with no crisis keyword, a client configured, and
a successful primary call, the reply equals the returned content after
stripping leading and trailing whitespace, a None content read as empty. -/
theorem reply_is_stripped_api_text (cfg : Config) (api : Api)
    (send : String → String → Except Unit Unit) (ev : TextEvent)
    (t : Option String)
    (hnc : crisisHit (normalize ev.text) = false)
    (hc : cfg.hasClient = true)
    (hok : api ⟨cfg.model, cfg.systemPrompt, normalize ev.text⟩ = .ok t) :
    (on_text cfg api send ev).reply = pyStrip (t.getD "") := by
  simp [on_text, hnc, ask_gpt, hc, hok]

/-- Witness for the amended C4: the scenario of the spec, input 你好 and
returned content 你好！最近怎麼樣？, relays that exact text. -/
theorem reply_is_stripped_api_text_witness :
    crisisHit (normalize (some "你好")) = false ∧
    (⟨"gpt-4o", "gpt-4o-mini", "s", true⟩ : Config).hasClient = true ∧
    (fun _ => .ok (some "你好！最近怎麼樣？") : Api)
      ⟨"gpt-4o", "s", normalize (some "你好")⟩ = .ok (some "你好！最近怎麼樣？") ∧
    (on_text ⟨"gpt-4o", "gpt-4o-mini", "s", true⟩
      (fun _ => .ok (some "你好！最近怎麼樣？")) (fun _ _ => .ok ())
      ⟨"tok", some "你好"⟩).reply = pyStrip ((some "你好！最近怎麼樣？").getD "") :=
  ⟨by decide, rfl, rfl,
    reply_is_stripped_api_text ⟨"gpt-4o", "gpt-4o-mini", "s", true⟩
      (fun _ => .ok (some "你好！最近怎麼樣？")) (fun _ _ => .ok ())
      ⟨"tok", some "你好"⟩ (some "你好！最近怎麼樣？") (by decide) rfl rfl⟩

/-- Counterexample to claim C5 as stated: when the primary call fails
and the fallback returns the content " 好 ", the reply used is the
stripped text 好, not the fallback call returned text itself. -/
theorem fallback_reply_not_exact :
    ask_gpt ⟨"m", "f", "s", true⟩
      (fun c => if c.model = "f" then .ok (some " 好 ") else .error ()) "hi" =
      ("好", [⟨"m", "s", "hi"⟩, ⟨"f", "s", "hi"⟩]) ∧
    ("好" : String) ≠ " 好 " := by
  constructor <;> decide

/-- Claim C5 (amended): when the primary call fails, exactly one retry
is made, against the configured fallback model, and if it succeeds the
reply is the fallback returned content stripped of leading and trailing
whitespace (a None content read as empty). -/
theorem fallback_retry_once (cfg : Config) (api : Api) (u : String)
    (t : Option String)
    (hc : cfg.hasClient = true)
    (hfail : api ⟨cfg.model, cfg.systemPrompt, u⟩ = .error ())
    (hok : api ⟨cfg.fallbackModel, cfg.systemPrompt, u⟩ = .ok t) :
    ask_gpt cfg api u =
      (pyStrip (t.getD ""),
        [⟨cfg.model, cfg.systemPrompt, u⟩,
         ⟨cfg.fallbackModel, cfg.systemPrompt, u⟩]) := by
  simp [ask_gpt, hc, hfail, hok]

/-- Witness for the amended C5 at a concrete oracle failing on the
primary model and answering on the fallback model. -/
theorem fallback_retry_once_witness :
    (⟨"m", "f", "s", true⟩ : Config).hasClient = true ∧
    (fun c => if c.model = "f" then .ok (some "ok") else .error () : Api)
      ⟨"m", "s", "hi"⟩ = .error () ∧
    (fun c => if c.model = "f" then .ok (some "ok") else .error () : Api)
      ⟨"f", "s", "hi"⟩ = .ok (some "ok") ∧
    ask_gpt ⟨"m", "f", "s", true⟩
      (fun c => if c.model = "f" then .ok (some "ok") else .error ()) "hi" =
      (pyStrip ((some "ok").getD ""), [⟨"m", "s", "hi"⟩, ⟨"f", "s", "hi"⟩]) :=
  ⟨rfl, rfl, rfl,
    fallback_retry_once ⟨"m", "f", "s", true⟩
      (fun c => if c.model = "f" then .ok (some "ok") else .error ())
      "hi" (some "ok") rfl rfl rfl⟩

/-- Claim C6: when the primary and the fallback calls both fail, the
reply is the fixed apology, and the webhook response is still 200 OK:
no completion exception reaches the HTTP layer. -/
theorem both_fail_apology (cfg : Config) (api : Api) (u : String)
    (sign : String → String → String) (secret : String)
    (send : String → String → Except Unit Unit)
    (parseEvents : String → List TextEvent) (body sig : String)
    (hc : cfg.hasClient = true)
    (h1 : api ⟨cfg.model, cfg.systemPrompt, u⟩ = .error ())
    (h2 : api ⟨cfg.fallbackModel, cfg.systemPrompt, u⟩ = .error ())
    (hs0 : sig ≠ "") (hs : sig = sign secret body) :
    (ask_gpt cfg api u).1 = APOLOGY ∧
    (callback sign secret cfg api send parseEvents body (some sig)).1 = "OK" ∧
    (callback sign secret cfg api send parseEvents body (some sig)).2.1 = 200 := by
  subst hs
  refine ⟨?_, ?_, ?_⟩
  · simp [ask_gpt, hc, h1, h2]
  · simp [callback, hs0]
  · simp [callback, hs0]

/-- Witness for C6: an always-failing oracle yields the apology and the
webhook still acknowledges with 200 OK. -/
theorem both_fail_apology_witness :
    (⟨"m", "f", "s", true⟩ : Config).hasClient = true ∧
    (fun _ => .error () : Api) ⟨"m", "s", "hi"⟩ = .error () ∧
    (fun _ => .error () : Api) ⟨"f", "s", "hi"⟩ = .error () ∧
    ("sig" : String) ≠ "" ∧
    "sig" = (fun _ _ => "sig" : String → String → String) "sec" "body" ∧
    (ask_gpt ⟨"m", "f", "s", true⟩ (fun _ => .error ()) "hi").1 = APOLOGY ∧
    (callback (fun _ _ => "sig") "sec" ⟨"m", "f", "s", true⟩
      (fun _ => .error ()) (fun _ _ => .error ()) (fun _ => [⟨"tok", some "hi"⟩])
      "body" (some "sig")).1 = "OK" ∧
    (callback (fun _ _ => "sig") "sec" ⟨"m", "f", "s", true⟩
      (fun _ => .error ()) (fun _ _ => .error ()) (fun _ => [⟨"tok", some "hi"⟩])
      "body" (some "sig")).2.1 = 200 := by
  refine ⟨rfl, rfl, rfl, by decide, rfl, ?_, ?_, ?_⟩
  · exact (both_fail_apology ⟨"m", "f", "s", true⟩ (fun _ => .error ()) "hi"
      (fun _ _ => "sig") "sec" (fun _ _ => .error ()) (fun _ => [⟨"tok", some "hi"⟩])
      "body" "sig" rfl rfl rfl (by decide) rfl).1
  · exact (both_fail_apology ⟨"m", "f", "s", true⟩ (fun _ => .error ()) "hi"
      (fun _ _ => "sig") "sec" (fun _ _ => .error ()) (fun _ => [⟨"tok", some "hi"⟩])
      "body" "sig" rfl rfl rfl (by decide) rfl).2.1
  · exact (both_fail_apology ⟨"m", "f", "s", true⟩ (fun _ => .error ()) "hi"
      (fun _ _ => "sig") "sec" (fun _ _ => .error ()) (fun _ => [⟨"tok", some "hi"⟩])
      "body" "sig" rfl rfl rfl (by decide) rfl).2.2

/-- Claim C7: whenever the signature verifies, the HTTP response is
200 with body OK, whatever the completion oracle and the reply-send
oracle do; in particular a failing send is swallowed inside the handler
and never surfaces in the response. -/
theorem verified_signature_200_ok (sign : String → String → String)
    (secret : String) (cfg : Config) (api : Api)
    (send : String → String → Except Unit Unit)
    (parseEvents : String → List TextEvent) (body sig : String)
    (h0 : sig ≠ "") (h : sig = sign secret body) :
    (callback sign secret cfg api send parseEvents body (some sig)).1 = "OK" ∧
    (callback sign secret cfg api send parseEvents body (some sig)).2.1 = 200 := by
  subst h
  constructor <;> simp [callback, h0]

/-- Witness for C7: with a valid signature and a send oracle that always
fails, the response is still 200 OK. -/
theorem verified_signature_200_ok_witness :
    ("sig" : String) ≠ "" ∧
    "sig" = (fun _ _ => "sig" : String → String → String) "sec" "body" ∧
    (callback (fun _ _ => "sig") "sec" ⟨"m", "f", "s", true⟩
      (fun _ => .ok (some "hello")) (fun _ _ => .error ())
      (fun _ => [⟨"tok", some "hi"⟩]) "body" (some "sig")).1 = "OK" ∧
    (callback (fun _ _ => "sig") "sec" ⟨"m", "f", "s", true⟩
      (fun _ => .ok (some "hello")) (fun _ _ => .error ())
      (fun _ => [⟨"tok", some "hi"⟩]) "body" (some "sig")).2.1 = 200 :=
  ⟨by decide, rfl,
    (verified_signature_200_ok (fun _ _ => "sig") "sec" ⟨"m", "f", "s", true⟩
      (fun _ => .ok (some "hello")) (fun _ _ => .error ())
      (fun _ => [⟨"tok", some "hi"⟩]) "body" "sig" (by decide) rfl).1,
    (verified_signature_200_ok (fun _ _ => "sig") "sec" ⟨"m", "f", "s", true⟩
      (fun _ => .ok (some "hello")) (fun _ _ => .error ())
      (fun _ => [⟨"tok", some "hi"⟩]) "body" "sig" (by decide) rfl).2⟩

/-- The segment-collection loop is the takeWhile of the trimmed
segments. -/
lemma collectParts_eq (segs : List String) :
    collectParts segs =
      (segs.map pyStrip).takeWhile (fun s => decide (¬ s = "")) := by
  induction segs with
  | nil => rfl
  | cons s rest ih =>
    by_cases h : pyStrip s = ""
    · simp [collectParts, List.takeWhile_cons, h]
    · simp [collectParts, List.takeWhile_cons, h, ih]

/-- Counterexample to claim C8 as stated: with SYSTEM_PROMPT empty and
no numbered segment set, the code does not produce the (empty) newline
join of the segments; it falls back to a built-in default prompt. -/
theorem prompt_default_not_claimed :
    load_system_prompt "" [] ≠ claimedPrompt "" [] ∧
    load_system_prompt "" [] = DEFAULT_PROMPT := by
  constructor <;> decide

/-- Claim C8 (amended): the startup prompt is the trimmed SYSTEM_PROMPT
when nonempty; otherwise the trimmed numbered segments up to the first
absent/empty-after-trim one, newline-joined, when at least one exists;
otherwise a built-in default prompt. -/
theorem load_system_prompt_amended (sp : String) (segs : List String) :
    load_system_prompt sp segs = amendedPrompt sp segs := by
  simp only [load_system_prompt, amendedPrompt]
  rw [collectParts_eq]
  by_cases h : pyStrip sp ≠ ""
  · rw [if_pos h, if_pos h]
  · rw [if_neg h, if_neg h]
    by_cases h2 : (segs.map pyStrip).takeWhile (fun s => decide (¬ s = "")) = []
    · rw [if_neg (fun hn => hn h2), if_pos h2]
    · rw [if_pos h2, if_neg h2]

/-- The no-key notice followed by any echo is never the apology string:
their first characters differ. -/
lemma notice_append_ne_apology (x : String) :
    NO_KEY_NOTICE ++ x ≠ APOLOGY := by
  intro h
  have hd : (NO_KEY_NOTICE.data ++ x.data).head? = APOLOGY.data.head? := by
    rw [← String.data_append, h]
  have h1 : (NO_KEY_NOTICE.data ++ x.data).head? = NO_KEY_NOTICE.data.head? := by
    cases hh : NO_KEY_NOTICE.data with
    | nil => exact absurd hh (by decide)
    | cons a l => rfl
  rw [h1] at hd
  exact absurd hd (by decide)

/-- Claim C9: with an absent/empty OPENAI_API_KEY the process still
starts (only the LINE variables are required), and a non-crisis event
gets the fixed notice with the user text echoed — no completion call is
attempted and the reply is not the apology. -/
theorem no_api_key_echo (cfg : Config) (api : Api)
    (send : String → String → Except Unit Unit) (ev : TextEvent)
    (lineToken lineSecret openaiKey : String)
    (ht : pyStrip lineToken ≠ "") (hs : pyStrip lineSecret ≠ "")
    (hk : pyStrip openaiKey = "")
    (hc : cfg.hasClient = false)
    (hnc : crisisHit (normalize ev.text) = false) :
    startup lineToken lineSecret openaiKey = .ok false ∧
    (on_text cfg api send ev).reply = NO_KEY_NOTICE ++ normalize ev.text ∧
    (on_text cfg api send ev).reply ≠ APOLOGY ∧
    (on_text cfg api send ev).calls = [] := by
  have hr : (on_text cfg api send ev).reply = NO_KEY_NOTICE ++ normalize ev.text := by
    simp [on_text, hnc, ask_gpt, hc]
  refine ⟨?_, hr, ?_, ?_⟩
  · simp [startup, ht, hs, hk]
  · rw [hr]; exact notice_append_ne_apology _
  · simp [on_text, hnc, ask_gpt, hc]

/-- Witness for C9 with LINE variables set, an empty OPENAI_API_KEY and
the non-crisis text 你好. -/
theorem no_api_key_echo_witness :
    pyStrip "tok" ≠ "" ∧ pyStrip "sec" ≠ "" ∧ pyStrip "" = "" ∧
    (⟨"m", "f", "s", false⟩ : Config).hasClient = false ∧
    crisisHit (normalize (some "你好")) = false ∧
    startup "tok" "sec" "" = .ok false ∧
    (on_text ⟨"m", "f", "s", false⟩ (fun _ => .error ()) (fun _ _ => .ok ())
      ⟨"rt", some "你好"⟩).reply = NO_KEY_NOTICE ++ normalize (some "你好") ∧
    (on_text ⟨"m", "f", "s", false⟩ (fun _ => .error ()) (fun _ _ => .ok ())
      ⟨"rt", some "你好"⟩).calls = [] := by
  have h := no_api_key_echo ⟨"m", "f", "s", false⟩ (fun _ => .error ())
    (fun _ _ => .ok ()) ⟨"rt", some "你好"⟩ "tok" "sec" ""
    (by decide) (by decide) (by decide) rfl (by decide)
  exact ⟨by decide, by decide, by decide, rfl, by decide, h.1, h.2.1, h.2.2.2⟩

/-- Claim C10: the handler normalises the message text first — a None
text reads as empty, whitespace is stripped from both ends — and the
whole outcome, the crisis test and the user content of every completion
call depend on the text only through this normalisation; in particular a
None text is handled like an empty one, never an error. -/
theorem text_normalized_before_use (cfg : Config) (api : Api)
    (send : String → String → Except Unit Unit) (ev1 ev2 : TextEvent)
    (htok : ev1.reply_token = ev2.reply_token)
    (htext : normalize ev1.text = normalize ev2.text) :
    on_text cfg api send ev1 = on_text cfg api send ev2 ∧
    normalize none = "" ∧
    (∀ t : String, normalize (some t) = pyStrip t) ∧
    (∀ c ∈ (on_text cfg api send ev1).calls, c.user = normalize ev1.text) := by
  have hcalls : (on_text cfg api send ev1).calls =
      if crisisHit (normalize ev1.text) then []
      else (ask_gpt cfg api (normalize ev1.text)).2 := by
    by_cases hcr : crisisHit (normalize ev1.text) <;> simp [on_text, hcr]
  refine ⟨?_, by decide, fun t => rfl, ?_⟩
  · unfold on_text
    rw [htok, htext]
  · intro c hc
    rw [hcalls] at hc
    by_cases hcr : crisisHit (normalize ev1.text)
    · simp [hcr] at hc
    · simp only [hcr, if_neg, Bool.false_eq_true, if_false] at hc
      exact ask_gpt_calls_user cfg api (normalize ev1.text) c hc

/-- Witness for C10: a None text and a whitespace-only text normalise to
the same empty string and are handled identically. -/
theorem text_normalized_before_use_witness :
    (⟨"rt", none⟩ : TextEvent).reply_token =
      (⟨"rt", some " "⟩ : TextEvent).reply_token ∧
    normalize (⟨"rt", none⟩ : TextEvent).text =
      normalize (⟨"rt", some " "⟩ : TextEvent).text ∧
    on_text ⟨"m", "f", "s", true⟩ (fun _ => .ok (some "hi")) (fun _ _ => .ok ())
      ⟨"rt", none⟩ =
    on_text ⟨"m", "f", "s", true⟩ (fun _ => .ok (some "hi")) (fun _ _ => .ok ())
      ⟨"rt", some " "⟩ :=
  ⟨rfl, by decide,
    (text_normalized_before_use ⟨"m", "f", "s", true⟩
      (fun _ => .ok (some "hi")) (fun _ _ => .ok ())
      ⟨"rt", none⟩ ⟨"rt", some " "⟩ rfl (by decide)).1⟩

end LineBot
